import Mathlib

/-!
Verification of the NYC 311 rat-complaint automation script (`src/submit.py`)
against its natural-language specification.

The script drives a multi-step web form via Playwright.  We shallowly embed
the relevant parts: pages are records of the facts the script's locators can
observe, fallible operations return `Except`, and the orchestrator (`main`)
is modelled as a function producing an exit code together with a trace of
the externally visible events (captcha checks, form fills, clicks, artifact
writes).
-/

namespace Submit

/-! ### String helpers

`strContains s pat` models both Python's `pat in s` and Playwright's
substring matching: `pat` occurs contiguously in `s`.  Playwright's
`:has-text()` matches case-insensitively, which `hasTextMatch` captures by
lowercasing both sides first. -/

def strContains (s pat : String) : Bool :=
  decide (pat.data <:+: s.data)

/-- Character-wise lowercasing of a string's characters (what Python's
`str.lower` and Playwright's case-insensitive matching do to ASCII). -/
def lowerChars (s : String) : List Char :=
  s.data.map Char.toLower

def hasTextMatch (optionText pref : String) : Bool :=
  decide (lowerChars pref <:+: lowerChars optionText)

/-! ### Challenge guard (`ensure_no_captcha`, src/submit.py lines 126-147)

The page is modelled by the list of first-match elements that the four
captcha selectors produce (absent selector matches are simply absent from
the list).  `checkCaptchaElement` is the body of the `try:` block;
`exceptPass` is the `except Exception: pass` wrapped around it. -/

structure BoundingBox where
  width : Nat
  height : Nat
  deriving DecidableEq

structure CaptchaElement where
  visible : Bool
  box : Option BoundingBox
  deriving DecidableEq

structure Page where
  captchaMatches : List CaptchaElement
  deriving DecidableEq

/-- Body of the `try:` block at src/submit.py lines 139-145: raise exactly
when the element is visible and its bounding box exceeds 50x50. -/
def checkCaptchaElement (e : CaptchaElement) : Except String Unit :=
  if e.visible then
    match e.box with
    | some b => if 50 < b.width && 50 < b.height then .error "CAPTCHA detected" else .ok ()
    | none => .ok ()
  else .ok ()

/-- `except Exception: pass` (src/submit.py lines 146-147): every exception
raised by the body, including the deliberate `raise Exception("CAPTCHA
detected")`, is swallowed. -/
def exceptPass : Except String Unit → Except String Unit
  | .ok () => .ok ()
  | .error _ => .ok ()

/-- `ensure_no_captcha` (src/submit.py lines 126-147): loop over selector
matches, each iteration entirely inside try/except-pass. -/
def ensure_no_captcha (p : Page) : Except String Unit :=
  p.captchaMatches.foldlM (fun _ e => exceptPass (checkCaptchaElement e)) ()

/-! ### Step verifier (`get_current_step`, src/submit.py lines 158-174) -/

structure StepPage where
  /-- Steps for which the active progress marker selector matches. -/
  activeMarkers : List Nat
  hasProblemDetail : Bool
  hasLocationType : Bool
  hasContactField : Bool
  hasSubmitButton : Bool
  deriving DecidableEq

/-- `get_current_step` (src/submit.py lines 158-174), with the
`for step in [1, 2, 3, 4]` loop unrolled. -/
def get_current_step (p : StepPage) : Option Nat :=
  if p.activeMarkers.contains 1 then some 1
  else if p.activeMarkers.contains 2 then some 2
  else if p.activeMarkers.contains 3 then some 3
  else if p.activeMarkers.contains 4 then some 4
  else if p.hasProblemDetail then some 1
  else if p.hasLocationType then some 2
  else if p.hasContactField then some 3
  else if p.hasSubmitButton then some 4
  else none

/-- The step-verification tail of `wait_and_click_next`
(src/submit.py lines 196-201).  `expected = none` models the argument left
at its `None` default; a `some 0` argument would be falsy in Python and is
likewise skipped; `if current and current != expected_next_step` is the
truthiness test on the verifier result. -/
def verify_step_transition (p : StepPage) (expected : Option Nat) :
    Except String Unit :=
  match expected with
  | none => .ok ()
  | some e =>
      if e == 0 then .ok ()
      else
        match get_current_step p with
        | none => .ok ()
        | some c =>
            if c != 0 && c != e then .error "Step transition failed" else .ok ()

/-! ### Preference-list selection
(`fill_step1_what` additional-details loop, src/submit.py lines 270-292, and
`fill_step2_where` location-type loop, lines 346-364)

`options` is the rendered options list of the dropdown, in DOM order
(NYC 311 dropdowns render an empty placeholder option first).  The Python
loop walks the preference list and picks the first preference for which
some option matches `:has-text` (case-insensitive containment).  Step 1
then selects by the exact text of the first matching option (always an
actual option, so that selection succeeds).  Step 2 instead calls
`select_option(label=option)` with the preference string itself
(src/submit.py line 356): label matching is exact, so the selection
succeeds only when some option's text equals the preference, and raises
when the preference matched an option only by strict containment; `none`
models that raise.  When no preference matches, both fall back to
`select_option(index=1)`, which raises when the list has no second option;
`none` models that raise too. -/

def selectPreferredOption (prefs options : List String) : Option String :=
  match prefs.find? (fun pref => options.any (fun o => hasTextMatch o pref)) with
  | some pref => options.find? (fun o => hasTextMatch o pref)
  | none => options[1]?

def selectLocationTypeFrom (prefs options : List String) : Option String :=
  match prefs.find? (fun pref => options.any (fun o => hasTextMatch o pref)) with
  | some pref => if options.contains pref then some pref else none
  | none => options[1]?

/-- The location-type preference list of `fill_step2_where`
(src/submit.py lines 347-352). -/
def locationOptions : List String :=
  ["3+ Family Apt. Building", "3+ Family Mixed Use Building",
   "1-2 Family Dwelling", "1-2 Family Mixed Use Building"]

/-- Modelled exactly from the spec words "selects the first non-empty
option" — the behaviour the spec claims for the no-match fallback, to be
compared against the source fallback `select_option(index=1)`. -/
def firstNonEmptyOption (options : List String) : Option String :=
  options.find? (fun o => !o.isEmpty)

/-! ### Step 1 recurrence block (src/submit.py lines 313-321) -/

structure Step1Page where
  /-- A `fieldset`/`div` containing the text "recurring" matches. -/
  recurringGroupPresent : Bool
  /-- Count of elements labelled "Yes" inside that group. -/
  groupYesCount : Nat
  /-- Count of radio-role elements named "Yes" anywhere on the page. -/
  pageYesCount : Nat
  deriving DecidableEq

/-- Whether the recurrence "Yes" radio gets checked: the code resolves the
radio (group-scoped when the group matches, page-wide otherwise) and checks
it only when `yes_radio.count() > 0`; otherwise it silently moves on. -/
def recurringChecked (p : Step1Page) : Bool :=
  if p.recurringGroupPresent then p.groupYesCount > 0 else p.pageYesCount > 0

/-! ### Step 4: review and submit (src/submit.py lines 527-580) -/

structure PostSubmitPage where
  /-- The submit affordance resolves and becomes visible within its bound. -/
  submitButtonVisible : Bool
  /-- The bounded wait for the "Thank you" text succeeds. -/
  thankYouAppears : Bool
  /-- Full serialized page content after the submit click. -/
  content : String
  deriving DecidableEq

/-- The fallback full-content keyword scan (src/submit.py lines 563-564):
the lowercased page content is searched for any of the three keywords. -/
def contentScanMatches (p : PostSubmitPage) : Bool :=
  hasTextMatch p.content "thank you" ||
    hasTextMatch p.content "confirmation" ||
      hasTextMatch p.content "submitted"

def confirmationFound (p : PostSubmitPage) : Bool :=
  p.thankYouAppears || contentScanMatches p

/-- `fill_step4_review_and_submit` (src/submit.py lines 527-580): in a dry
run, return success before touching the submit affordance; otherwise click
submit and require a confirmation signal, raising when neither the bounded
wait nor the content scan finds one. -/
def fill_step4_review_and_submit (dry : Bool) (p : PostSubmitPage) :
    Except String Bool :=
  if dry then .ok true
  else if !p.submitButtonVisible then .error "Timeout: submit button not visible"
  else if confirmationFound p then .ok true
  else .error "Submission failed: no confirmation message found"

/-! ### Result summary file (`save_submission_details`, src/submit.py
lines 82-98).  The written text is a function of the configuration, the
chosen description and the formatted observation timestamp only; the
classification lines are string constants in the source. -/

structure Config where
  address : String
  city : String
  state : String
  zip : String
  deriving DecidableEq

/-- Default configuration values (src/submit.py lines 52-55). -/
def defaultConfig : Config :=
  { address := "932 Carroll St", city := "Brooklyn", state := "NY", zip := "11225" }

def submission_details_text (cfg : Config) (description dtStr : String) : String :=
  "Address: " ++ cfg.address ++ ", " ++ cfg.city ++ ", " ++ cfg.state ++ " " ++ cfg.zip ++ "\n" ++
  "Location Type: 3+ Family Apt. Building" ++ "\n" ++
  "Problem Detail: Condition Attracting Rodents" ++ "\n" ++
  "Additional Details: Garbage" ++ "\n" ++
  "Date/Time Observed: " ++ dtStr ++ "\n" ++
  "Recurring: Yes" ++ "\n" ++ "\n" ++
  "Description: " ++ description

/-! ### Orchestrator (`main`, src/submit.py lines 583-654)

We model the run as an exit code plus a trace of externally visible events.
The environment `Env` fixes the facts the page presents at each point of
the run (whether buttons become visible, what the step verifier reads after
each advance click, whether the address modal flow succeeds, what the
post-submit page shows). -/

inductive Ev where
  | goto
  | checkCaptcha
  | navigateToForm
  | fillWhat
  | setRecurring
  | fillWhere
  | clickNext
  | clickSubmit
  | saveScreenshot (tag : String)
  | saveHtml (tag : String)
  | saveDetails (text : String)
  deriving DecidableEq

def isFormEvent : Ev → Bool
  | .fillWhat => true
  | .setRecurring => true
  | .fillWhere => true
  | .clickNext => true
  | .clickSubmit => true
  | _ => false

def isScreenshotEv : Ev → Bool
  | .saveScreenshot _ => true
  | _ => false

def isHtmlEv : Ev → Bool
  | .saveHtml _ => true
  | _ => false

inductive ExKind where
  | timeout
  | generic
  deriving DecidableEq

structure Ex where
  kind : ExKind
  msg : String
  deriving DecidableEq

/-- `save_debug_artifacts` (src/submit.py lines 101-123): one screenshot and
one serialized-document file, both under the given tag (the code suffixes a
timestamp; capture itself is assumed to succeed). -/
def save_debug_artifacts (tag : String) : List Ev :=
  [.saveScreenshot tag, .saveHtml tag]

/-- Outcome of the step-2 address-modal sub-flow (src/submit.py
lines 396-508): the Select Address button enables in time and the flow
succeeds silently; or the enabled-wait times out, the code saves an
"address_button_still_disabled" diagnostics pair (line 477), clicks the map
center and then still completes the stage; or a modal timeout makes the
flow save an "address_modal_failed" pair and re-raise. -/
inductive AddressOutcome where
  | ok
  | okAfterMapClick
  | failed
  deriving DecidableEq

structure Env where
  /-- Page as first loaded (captcha matches present on it). -/
  initialPage : Page
  /-- Page after navigating to the complaint form. -/
  formPage : Page
  /-- `navigate_to_complaint_form` finds the form / report button. -/
  navFormOk : Bool
  /-- Step-1 page facts for the recurrence radio. -/
  step1Page : Step1Page
  /-- The Next button of step 1 becomes visible within its bound. -/
  next1Visible : Bool
  /-- Settled page the verifier reads after the step-1 Next click. -/
  afterNext1 : StepPage
  /-- How the step-2 address-modal sub-flow plays out. -/
  addressStage : AddressOutcome
  next2Visible : Bool
  afterNext2 : StepPage
  next3Visible : Bool
  afterNext3 : StepPage
  postSubmit : PostSubmitPage

/-- `wait_and_click_next` (src/submit.py lines 177-201) as an event trace:
timeout when the button never becomes visible; otherwise click, then verify
the step transition, saving a step-tagged diagnostics pair before raising
on a confirmed mismatch. -/
def wait_and_click_next_run (nextVisible : Bool) (settled : StepPage)
    (expected : Option Nat) : List Ev × Option Ex :=
  if !nextVisible then ([], some ⟨.timeout, "next button not visible"⟩)
  else
    match expected, verify_step_transition settled expected with
    | some e, .error m =>
        ([.clickNext] ++
           save_debug_artifacts ("step_transition_failed_expected_" ++ toString e),
         some ⟨.generic, m⟩)
    | _, _ => ([.clickNext], none)

/-- Diagnostics saved by `ensure_no_captcha` itself: for every selector
match whose detection body triggers, `save_debug_artifacts(page,
"captcha_detected")` runs at src/submit.py line 144 *before* the raise that
the `except` then swallows, so each triggering match leaves one pair. -/
def captcha_artifacts_list : List CaptchaElement → List Ev
  | [] => []
  | e :: l =>
      (match checkCaptchaElement e with
       | .error _ => save_debug_artifacts "captcha_detected"
       | .ok _ => []) ++ captcha_artifacts_list l

def captcha_artifacts (p : Page) : List Ev :=
  captcha_artifacts_list p.captchaMatches

/-- The two guard invocations in `main` (src/submit.py lines 624 and 628):
the guard never raises (its raise is swallowed), but it does save a
"captcha_detected" pair for every triggering match. -/
def ensure_no_captcha_run (p : Page) : List Ev × Option Ex :=
  ([.checkCaptcha] ++ captcha_artifacts p,
   match ensure_no_captcha p with
   | .ok _ => none
   | .error m => some ⟨.generic, m⟩)

/-- `navigate_to_complaint_form` (src/submit.py lines 209-248), coarsely: it
either reaches the form, or saves a "no_report_button" diagnostics pair and
raises. -/
def navigate_to_complaint_form_run (env : Env) : List Ev × Option Ex :=
  if env.navFormOk then ([.navigateToForm], none)
  else (save_debug_artifacts "no_report_button",
        some ⟨.generic, "Could not find Report rats button"⟩)

/-- `fill_step1_what` (src/submit.py lines 251-325): fill the What fields
(checking the recurrence radio only when one resolves), then click Next
expecting step 2. -/
def fill_step1_run (env : Env) : List Ev × Option Ex :=
  let pre := [Ev.fillWhat] ++ (if recurringChecked env.step1Page then [Ev.setRecurring] else [])
  let s := wait_and_click_next_run env.next1Visible env.afterNext1 (some 2)
  (pre ++ s.1, s.2)

/-- `fill_step2_where` (src/submit.py lines 328-512): fill the Where fields;
on an address-modal timeout save an "address_modal_failed" pair and
re-raise; when the Select Address button never enables within its bound,
save an "address_button_still_disabled" pair (line 477), click the map
center, and continue; then click Next expecting step 3. -/
def fill_step2_run (env : Env) : List Ev × Option Ex :=
  match env.addressStage with
  | .failed =>
      ([Ev.fillWhere] ++ save_debug_artifacts "address_modal_failed",
       some ⟨.timeout, "address modal failed"⟩)
  | .ok =>
      let s := wait_and_click_next_run env.next2Visible env.afterNext2 (some 3)
      ([Ev.fillWhere] ++ s.1, s.2)
  | .okAfterMapClick =>
      let s := wait_and_click_next_run env.next2Visible env.afterNext2 (some 3)
      ([Ev.fillWhere] ++ save_debug_artifacts "address_button_still_disabled" ++ s.1,
       s.2)

/-- `fill_step3_who` (src/submit.py lines 515-524): leave the contact block
empty and click Next expecting step 4. -/
def fill_step3_run (env : Env) : List Ev × Option Ex :=
  wait_and_click_next_run env.next3Visible env.afterNext3 (some 4)

/-- `fill_step4_review_and_submit` as an event trace (src/submit.py
lines 527-580): in a dry run nothing is clicked; otherwise the submit click
happens, and a missing confirmation saves a diagnostics pair and raises. -/
def fill_step4_run (dry : Bool) (p : PostSubmitPage) : List Ev × Option Ex :=
  if dry then ([], none)
  else if !p.submitButtonVisible then
    ([], some ⟨.timeout, "submit button not visible"⟩)
  else if confirmationFound p then ([.clickSubmit], none)
  else ([.clickSubmit] ++ save_debug_artifacts "submission_failed_no_confirmation",
        some ⟨.generic, "Submission failed: no confirmation message found"⟩)

/-- Python sequencing: run the next statement only when the previous one
did not raise; keep the raised exception otherwise. -/
def stepSeq (r : List Ev × Option Ex) (k : Unit → List Ev × Option Ex) :
    List Ev × Option Ex :=
  match r with
  | (evs, some e) => (evs, some e)
  | (evs, none) => ((evs ++ (k ()).1, (k ()).2))

/-- The four form steps followed by `save_submission_details`
(src/submit.py lines 631-637). -/
def steps_block (dry : Bool) (env : Env) (cfg : Config) (d dt : String) :
    List Ev × Option Ex :=
  stepSeq (fill_step1_run env) fun _ =>
  stepSeq (fill_step2_run env) fun _ =>
  stepSeq (fill_step3_run env) fun _ =>
  stepSeq (fill_step4_run dry env.postSubmit) fun _ =>
  ([Ev.saveDetails (submission_details_text cfg d dt)], none)

/-- The body of the `try:` block of `main` (src/submit.py lines 617-642). -/
def try_block (dry : Bool) (env : Env) (cfg : Config) (d dt : String) :
    List Ev × Option Ex :=
  stepSeq ([Ev.goto], none) fun _ =>
  stepSeq (ensure_no_captcha_run env.initialPage) fun _ =>
  stepSeq (navigate_to_complaint_form_run env) fun _ =>
  stepSeq (ensure_no_captcha_run env.formPage) fun _ =>
  steps_block dry env cfg d dt

/-- The exception handlers of `main` (src/submit.py lines 644-651): a
timeout is saved under "timeout_error", anything else under "error"; both
return exit status 1. -/
def handle_failure (e : Ex) : List Ev :=
  match e.kind with
  | .timeout => save_debug_artifacts "timeout_error"
  | .generic => save_debug_artifacts "error"

/-- `main` (src/submit.py lines 583-654): exit 0 when the try block
completes, exit 1 with a diagnostics pair otherwise. -/
def main_run (dry : Bool) (env : Env) (cfg : Config) (d dt : String) :
    Nat × List Ev :=
  match try_block dry env cfg d dt with
  | (evs, none) => (0, evs)
  | (evs, some e) => (1, evs ++ handle_failure e)

/-! ### Concrete environments used as demonstration inputs -/

def cleanPage : Page := ⟨[]⟩

def markerPage2 : StepPage :=
  { activeMarkers := [2], hasProblemDetail := false, hasLocationType := true,
    hasContactField := false, hasSubmitButton := false }

def markerPage3 : StepPage :=
  { activeMarkers := [3], hasProblemDetail := false, hasLocationType := false,
    hasContactField := true, hasSubmitButton := false }

def markerPage4 : StepPage :=
  { activeMarkers := [4], hasProblemDetail := false, hasLocationType := false,
    hasContactField := false, hasSubmitButton := true }

def step1PageYes : Step1Page :=
  { recurringGroupPresent := true, groupYesCount := 1, pageYesCount := 1 }

def step1PageNoRadio : Step1Page :=
  { recurringGroupPresent := false, groupYesCount := 0, pageYesCount := 0 }

def confirmedPost : PostSubmitPage :=
  { submitButtonVisible := true, thankYouAppears := true,
    content := "Thank you for your submission" }

def happyEnv : Env :=
  { initialPage := cleanPage, formPage := cleanPage, navFormOk := true,
    step1Page := step1PageYes, next1Visible := true, afterNext1 := markerPage2,
    addressStage := AddressOutcome.ok, next2Visible := true, afterNext2 := markerPage3,
    next3Visible := true, afterNext3 := markerPage4, postSubmit := confirmedPost }

def sampleDescription : String := "Rats are constantly in the front of this building."

def sampleDt : String := "10/12/2025 3:04 PM"

/-- `happyEnv` with the step-2 Next button never becoming visible. -/
def step2TimeoutEnv : Env := { happyEnv with next2Visible := false }

/-- `step2TimeoutEnv` whose address stage only succeeded after the
disabled-button recovery (map-center click), which saved a diagnostics
pair of its own. -/
def step2TimeoutMapClickEnv : Env :=
  { happyEnv with addressStage := AddressOutcome.okAfterMapClick, next2Visible := false }

/-- `happyEnv` with no resolvable recurrence "Yes" radio on step 1. -/
def noRecurringRadioEnv : Env := { happyEnv with step1Page := step1PageNoRadio }

/-! ## Shared lemmas -/

theorem strContains_of_eq (s pat : String) (l r : List Char)
    (h : s.data = l ++ pat.data ++ r) : strContains s pat = true := by
  simp only [strContains, decide_eq_true_eq]
  exact ⟨l, r, h.symm⟩

theorem empty_string_data : ("" : String).data = [] := rfl

theorem strContains_of_parts (pre pat post s : String)
    (h : s = pre ++ pat ++ post) : strContains s pat = true := by
  subst h
  apply strContains_of_eq _ _ pre.data post.data
  simp [List.append_assoc]

theorem ensure_no_captcha_always_ok (p : Page) :
    ensure_no_captcha p = .ok () := by
  unfold ensure_no_captcha
  induction p.captchaMatches with
  | nil => rfl
  | cons e l ih =>
      have he : exceptPass (checkCaptchaElement e) = .ok () := by
        cases h : checkCaptchaElement e with
        | ok u => cases u; rfl
        | error m => rfl
      simp [List.foldlM, he]
      exact ih

theorem get_current_step_pos (p : StepPage) (c : Nat)
    (h : get_current_step p = some c) : c ≠ 0 := by
  unfold get_current_step at h
  split_ifs at h <;> simp_all <;> omega

theorem ensure_no_captcha_run_eq (p : Page) :
    ensure_no_captcha_run p = ([.checkCaptcha] ++ captcha_artifacts p, none) := by
  unfold ensure_no_captcha_run
  rw [ensure_no_captcha_always_ok]

/-- Every event the challenge guard's diagnostics emit is a
"captcha_detected" screenshot or document save, so it satisfies any
predicate that holds on those two events. -/
theorem captcha_artifacts_list_all (P : Ev → Bool)
    (h1 : P (Ev.saveScreenshot "captcha_detected") = true)
    (h2 : P (Ev.saveHtml "captcha_detected") = true) :
    ∀ l : List CaptchaElement, (captcha_artifacts_list l).all P = true := by
  intro l
  induction l with
  | nil => rfl
  | cons e l ih =>
      cases hc : checkCaptchaElement e <;>
        simp [captcha_artifacts_list, hc, save_debug_artifacts, List.all_append,
          h1, h2, ih]

theorem captcha_artifacts_all (P : Ev → Bool)
    (h1 : P (Ev.saveScreenshot "captcha_detected") = true)
    (h2 : P (Ev.saveHtml "captcha_detected") = true) (p : Page) :
    (captcha_artifacts p).all P = true :=
  captcha_artifacts_list_all P h1 h2 p.captchaMatches

theorem dropWhile_append_of_all (P : Ev → Bool) (l r : List Ev)
    (h : l.all P = true) : (l ++ r).dropWhile P = r.dropWhile P := by
  induction l with
  | nil => rfl
  | cons e l ih =>
      simp only [List.all_cons, Bool.and_eq_true] at h
      simp [List.dropWhile_cons, h.1, ih h.2]

theorem wait_and_click_next_run_ok (p : StepPage) (e : Nat)
    (h : verify_step_transition p (some e) = .ok ()) :
    wait_and_click_next_run true p (some e) = ([.clickNext], none) := by
  unfold wait_and_click_next_run
  rw [h]
  rfl

theorem verify_step_transition_elim (p : StepPage) (e : Nat)
    (he : (e == 0) = false) :
    verify_step_transition p (some e) =
      (match get_current_step p with
        | none => Except.ok ()
        | some c =>
            if c != 0 && c != e then Except.error "Step transition failed"
            else Except.ok ()) := by
  simp only [verify_step_transition, he, Bool.false_eq_true, if_false]

/-! ## C1 — challenge guard -/

/-- C1: the claim says `ensure_no_captcha` raises for every page on which a
challenge marker matches a visible element whose bounding box exceeds 50x50.
The code is a bug against that (and against its own docstring "Fail fast if
CAPTCHA is detected"): the `raise Exception("CAPTCHA detected")` sits inside
the same `try:` whose `except Exception: pass` swallows it, so the guard
returns normally on every page — shown here on a page with a visible 400x580
challenge element, where the detection body itself does signal. -/
theorem c1_captcha_guard_swallows_detection :
    checkCaptchaElement ⟨true, some ⟨400, 580⟩⟩ = .error "CAPTCHA detected" ∧
    ensure_no_captcha ⟨[⟨true, some ⟨400, 580⟩⟩]⟩ = .ok () ∧
    ∀ p : Page, ensure_no_captcha p = .ok () :=
  ⟨rfl, rfl, ensure_no_captcha_always_ok⟩

/-! ## C2 — step-transition verification -/

/-- C2: with a truthy expected step, the advance operation raises a
step-transition failure iff the verifier reads a known step different from
the expected one after the click, and returns normally whenever the
verifier yields Unknown (`none`). -/
theorem c2_advance_fails_iff_verified_mismatch (p : StepPage) (e : Nat)
    (he : e ≠ 0) :
    ((∃ m, verify_step_transition p (some e) = .error m) ↔
      ∃ c, get_current_step p = some c ∧ c ≠ e) ∧
    (get_current_step p = none → verify_step_transition p (some e) = .ok ()) := by
  have heb : (e == 0) = false := by simpa using he
  rw [verify_step_transition_elim p e heb]
  constructor
  · constructor
    · rintro ⟨m, hm⟩
      cases hg : get_current_step p with
      | none => rw [hg] at hm; simp at hm
      | some c =>
          rw [hg] at hm
          by_cases hce : c = e
          · subst hce
            simp at hm
          · exact ⟨c, rfl, hce⟩
    · rintro ⟨c, hc, hne⟩
      have hc0 : c ≠ 0 := get_current_step_pos p c hc
      rw [hc]
      refine ⟨"Step transition failed", ?_⟩
      simp [bne_iff_ne, hc0, hne]
  · intro hu
    rw [hu]

theorem c2_witness :
    (2 : Nat) ≠ 0 ∧
    (((∃ m, verify_step_transition markerPage3 (some 2) = .error m) ↔
        ∃ c, get_current_step markerPage3 = some c ∧ c ≠ 2) ∧
      (get_current_step markerPage3 = none →
        verify_step_transition markerPage3 (some 2) = .ok ())) :=
  ⟨by decide, c2_advance_fails_iff_verified_mismatch markerPage3 2 (by decide)⟩

/-! ## C3 — confirmation required after submit -/

/-- C3: in a non-dry run the submit step returns success exactly when the
submit click happened and a confirmation signal was found — the bounded
wait for the affirmative marker succeeded or the fallback full-content
keyword scan matched; in every other case it raises, so absence of
confirmation is never success. -/
theorem c3_no_confirmation_never_success (p : PostSubmitPage) :
    (∃ b, fill_step4_review_and_submit false p = .ok b) ↔
      (p.submitButtonVisible = true ∧
        (p.thankYouAppears = true ∨ contentScanMatches p = true)) := by
  unfold fill_step4_review_and_submit confirmationFound
  cases hv : p.submitButtonVisible <;> cases ht : p.thankYouAppears <;>
    cases hs : contentScanMatches p <;> simp [hv, ht, hs]

/-! ## C5 — preference-list selection -/

set_option maxRecDepth 4096 in
/-- C5 counterexample: with preference list `["A"]` and rendered options
`["X", "Y"]` no preference matches, and the fallback
`select_option(index=1)` selects `"Y"`, not the first non-empty option
`"X"` the claim promises; and with the single-option list `["X"]` the
fallback has no index 1 and fails, contradicting "does not fail". -/
theorem c5_counterexample :
    selectPreferredOption ["A"] ["X", "Y"] = some "Y" ∧
    firstNonEmptyOption ["X", "Y"] = some "X" ∧
    selectPreferredOption ["A"] ["X", "Y"] ≠ firstNonEmptyOption ["X", "Y"] ∧
    selectPreferredOption ["A"] ["X"] = none := by
  refine ⟨by decide, by decide, ?_, by decide⟩
  intro h
  rw [show selectPreferredOption ["A"] ["X", "Y"] = some "Y" from by decide,
      show firstNonEmptyOption ["X", "Y"] = some "X" from by decide] at h
  exact absurd (Option.some.inj h) (by decide)

set_option maxRecDepth 4096 in
/-- C5 amended: the filler walks the preference list and stops at the first
preference whose token occurs (case-insensitively) in some option text — in
particular `B` for preferences `[A, B, C]` over options `{B, D}` —; the
additional-details filler then selects the first matching option's own
text, while the location-type filler selects by exact label, so it selects
the preference itself when it is exactly an option's text and raises when
the preference matched only by strict containment; when no preference
matches any option both select the option at index 1 of the rendered list
(the first non-empty option exactly when the list starts with a single
empty placeholder), failing only when no such option exists. -/
theorem c5_amended_first_preference_else_index1 :
    (selectPreferredOption ["A", "B", "C"] ["B", "D"] = some "B" ∧
      selectLocationTypeFrom ["A", "B", "C"] ["B", "D"] = some "B") ∧
    (selectLocationTypeFrom ["Apt"] ["", "Apt. Building"] = none) ∧
    (∀ prefs options pref,
      prefs.find? (fun q => options.any (fun o => hasTextMatch o q)) = some pref →
        selectPreferredOption prefs options =
          options.find? (fun o => hasTextMatch o pref) ∧
        selectLocationTypeFrom prefs options =
          (if options.contains pref then some pref else none)) ∧
    (∀ prefs options,
      prefs.find? (fun q => options.any (fun o => hasTextMatch o q)) = none →
        selectPreferredOption prefs options = options[1]? ∧
        selectLocationTypeFrom prefs options = options[1]?) := by
  refine ⟨⟨by decide, by decide⟩, by decide, ?_, ?_⟩
  · intro prefs options pref h
    refine ⟨?_, ?_⟩
    · unfold selectPreferredOption
      rw [h]
    · unfold selectLocationTypeFrom
      rw [h]
  · intro prefs options h
    refine ⟨?_, ?_⟩
    · unfold selectPreferredOption
      rw [h]
    · unfold selectLocationTypeFrom
      rw [h]

set_option maxRecDepth 4096 in
theorem c5_witness :
    (["B"].find? (fun q => (["B", "D"]).any (fun o => hasTextMatch o q)) = some "B") ∧
    (selectPreferredOption ["B"] ["B", "D"] =
        (["B", "D"]).find? (fun o => hasTextMatch o "B") ∧
      selectLocationTypeFrom ["B"] ["B", "D"] =
        (if (["B", "D"]).contains "B" then some "B" else none)) :=
  ⟨by decide,
   c5_amended_first_preference_else_index1.2.2.1 ["B"] ["B", "D"] "B" (by decide)⟩

/-! ## C9 — the results summary hardcodes the classification -/

set_option maxRecDepth 40000 in
set_option maxHeartbeats 2000000 in
/-- C9 counterexample: in a run whose location-type options offer none of
the preferred labels, the filler falls back to the option at index 1
("Vacant Lot" here), yet the summary written by `save_submission_details`
still says "3+ Family Apt. Building" and never mentions the selected value:
the summary is a function of configuration, description and timestamp only
and does not record what was actually selected. -/
theorem c9_counterexample :
    selectLocationTypeFrom locationOptions ["", "Vacant Lot"] = some "Vacant Lot" ∧
    strContains (submission_details_text defaultConfig sampleDescription sampleDt)
        "Vacant Lot" = false ∧
    strContains (submission_details_text defaultConfig sampleDescription sampleDt)
        "3+ Family Apt. Building" = true := by
  refine ⟨by decide, by decide, by decide⟩

/-- C9 amended: the summary faithfully records the configured address, the
observation timestamp and the chosen description, but its classification
lines are the fixed constants "3+ Family Apt. Building",
"Condition Attracting Rodents" and "Garbage", independent of the values
actually selected on the form. -/
theorem c9_amended_summary_contents (cfg : Config) (d dt : String) :
    strContains (submission_details_text cfg d dt)
        ("Address: " ++ cfg.address ++ ", " ++ cfg.city ++ ", " ++
          cfg.state ++ " " ++ cfg.zip) = true ∧
    strContains (submission_details_text cfg d dt)
        "Location Type: 3+ Family Apt. Building" = true ∧
    strContains (submission_details_text cfg d dt)
        "Problem Detail: Condition Attracting Rodents" = true ∧
    strContains (submission_details_text cfg d dt)
        "Additional Details: Garbage" = true ∧
    strContains (submission_details_text cfg d dt) dt = true ∧
    strContains (submission_details_text cfg d dt) d = true := by
  refine ⟨?_, ?_, ?_, ?_, ?_, ?_⟩
  · apply strContains_of_parts ""
      ("Address: " ++ cfg.address ++ ", " ++ cfg.city ++ ", " ++
        cfg.state ++ " " ++ cfg.zip)
      ("\n" ++ "Location Type: 3+ Family Apt. Building" ++ "\n" ++
        "Problem Detail: Condition Attracting Rodents" ++ "\n" ++
        "Additional Details: Garbage" ++ "\n" ++
        "Date/Time Observed: " ++ dt ++ "\n" ++
        "Recurring: Yes" ++ "\n" ++ "\n" ++ "Description: " ++ d)
    apply String.ext
    simp only [submission_details_text, String.data_append, List.append_assoc,
      List.nil_append, List.append_nil, empty_string_data]
  · apply strContains_of_parts
      ("Address: " ++ cfg.address ++ ", " ++ cfg.city ++ ", " ++
        cfg.state ++ " " ++ cfg.zip ++ "\n")
      "Location Type: 3+ Family Apt. Building"
      ("\n" ++ "Problem Detail: Condition Attracting Rodents" ++ "\n" ++
        "Additional Details: Garbage" ++ "\n" ++
        "Date/Time Observed: " ++ dt ++ "\n" ++
        "Recurring: Yes" ++ "\n" ++ "\n" ++ "Description: " ++ d)
    apply String.ext
    simp only [submission_details_text, String.data_append, List.append_assoc,
      List.nil_append, List.append_nil, empty_string_data]
  · apply strContains_of_parts
      ("Address: " ++ cfg.address ++ ", " ++ cfg.city ++ ", " ++
        cfg.state ++ " " ++ cfg.zip ++ "\n" ++
        "Location Type: 3+ Family Apt. Building" ++ "\n")
      "Problem Detail: Condition Attracting Rodents"
      ("\n" ++ "Additional Details: Garbage" ++ "\n" ++
        "Date/Time Observed: " ++ dt ++ "\n" ++
        "Recurring: Yes" ++ "\n" ++ "\n" ++ "Description: " ++ d)
    apply String.ext
    simp only [submission_details_text, String.data_append, List.append_assoc,
      List.nil_append, List.append_nil, empty_string_data]
  · apply strContains_of_parts
      ("Address: " ++ cfg.address ++ ", " ++ cfg.city ++ ", " ++
        cfg.state ++ " " ++ cfg.zip ++ "\n" ++
        "Location Type: 3+ Family Apt. Building" ++ "\n" ++
        "Problem Detail: Condition Attracting Rodents" ++ "\n")
      "Additional Details: Garbage"
      ("\n" ++ "Date/Time Observed: " ++ dt ++ "\n" ++
        "Recurring: Yes" ++ "\n" ++ "\n" ++ "Description: " ++ d)
    apply String.ext
    simp only [submission_details_text, String.data_append, List.append_assoc,
      List.nil_append, List.append_nil, empty_string_data]
  · apply strContains_of_parts
      ("Address: " ++ cfg.address ++ ", " ++ cfg.city ++ ", " ++
        cfg.state ++ " " ++ cfg.zip ++ "\n" ++
        "Location Type: 3+ Family Apt. Building" ++ "\n" ++
        "Problem Detail: Condition Attracting Rodents" ++ "\n" ++
        "Additional Details: Garbage" ++ "\n" ++
        "Date/Time Observed: ")
      dt
      ("\n" ++ "Recurring: Yes" ++ "\n" ++ "\n" ++ "Description: " ++ d)
    apply String.ext
    simp only [submission_details_text, String.data_append, List.append_assoc,
      List.nil_append, List.append_nil, empty_string_data]
  · apply strContains_of_parts
      ("Address: " ++ cfg.address ++ ", " ++ cfg.city ++ ", " ++
        cfg.state ++ " " ++ cfg.zip ++ "\n" ++
        "Location Type: 3+ Family Apt. Building" ++ "\n" ++
        "Problem Detail: Condition Attracting Rodents" ++ "\n" ++
        "Additional Details: Garbage" ++ "\n" ++
        "Date/Time Observed: " ++ dt ++ "\n" ++
        "Recurring: Yes" ++ "\n" ++ "\n" ++ "Description: ")
      d ""
    apply String.ext
    simp only [submission_details_text, String.data_append, List.append_assoc,
      List.nil_append, List.append_nil, empty_string_data]

/-! ## Orchestrator trace lemmas -/

theorem stepSeq_all (p : Ev → Bool) (r : List Ev × Option Ex)
    (k : Unit → List Ev × Option Ex)
    (h1 : r.1.all p = true) (h2 : (k ()).1.all p = true) :
    ((stepSeq r k).1.all p) = true := by
  rcases r with ⟨evs, ex⟩
  cases ex <;> simp_all [stepSeq, List.all_append]

theorem wcn_no_captcha (v : Bool) (q : StepPage) (exp : Option Nat) :
    ((wait_and_click_next_run v q exp).1.all (fun e => e != Ev.checkCaptcha)) = true := by
  unfold wait_and_click_next_run
  split
  · rfl
  · split <;> simp [save_debug_artifacts]

theorem step1_no_captcha (env : Env) :
    ((fill_step1_run env).1.all (fun e => e != Ev.checkCaptcha)) = true := by
  unfold fill_step1_run
  cases h : recurringChecked env.step1Page <;>
    simp [h, List.all_append, wcn_no_captcha]

theorem step2_no_captcha (env : Env) :
    ((fill_step2_run env).1.all (fun e => e != Ev.checkCaptcha)) = true := by
  unfold fill_step2_run
  cases h : env.addressStage <;>
    simp [h, List.all_append, wcn_no_captcha, save_debug_artifacts]

theorem step3_no_captcha (env : Env) :
    ((fill_step3_run env).1.all (fun e => e != Ev.checkCaptcha)) = true := by
  unfold fill_step3_run
  exact wcn_no_captcha _ _ _

theorem step4_no_captcha (dry : Bool) (q : PostSubmitPage) :
    ((fill_step4_run dry q).1.all (fun e => e != Ev.checkCaptcha)) = true := by
  unfold fill_step4_run
  split_ifs <;> simp [save_debug_artifacts]

theorem steps_block_no_captcha (dry : Bool) (env : Env) (cfg : Config) (d dt : String) :
    ((steps_block dry env cfg d dt).1.all (fun e => e != Ev.checkCaptcha)) = true := by
  unfold steps_block
  apply stepSeq_all _ _ _ (step1_no_captcha env)
  apply stepSeq_all _ _ _ (step2_no_captcha env)
  apply stepSeq_all _ _ _ (step3_no_captcha env)
  apply stepSeq_all _ _ _ (step4_no_captcha dry env.postSubmit)
  simp

theorem handle_failure_no_captcha (ex : Ex) :
    ((handle_failure ex).all (fun e => e != Ev.checkCaptcha)) = true := by
  rcases ex with ⟨kind, msg⟩
  cases kind <;> simp [handle_failure, save_debug_artifacts]

theorem stepSeq_fst (r : List Ev × Option Ex) (k : Unit → List Ev × Option Ex) :
    ∃ t, (stepSeq r k).1 = r.1 ++ t := by
  rcases r with ⟨evs, ex⟩
  cases ex
  · exact ⟨(k ()).1, by simp [stepSeq]⟩
  · exact ⟨[], by simp [stepSeq]⟩

theorem fill_step1_run_head (env : Env) :
    ∃ t, (fill_step1_run env).1 = Ev.fillWhat :: t := by
  cases hr : recurringChecked env.step1Page
  · exact ⟨(wait_and_click_next_run env.next1Visible env.afterNext1 (some 2)).1,
      by simp [fill_step1_run, hr]⟩
  · exact ⟨Ev.setRecurring ::
        (wait_and_click_next_run env.next1Visible env.afterNext1 (some 2)).1,
      by simp [fill_step1_run, hr]⟩

theorem steps_block_head (dry : Bool) (env : Env) (cfg : Config) (d dt : String) :
    ∃ t, (steps_block dry env cfg d dt).1 = Ev.fillWhat :: t := by
  unfold steps_block
  obtain ⟨t2, ht2⟩ := stepSeq_fst (fill_step1_run env)
    (fun _ => stepSeq (fill_step2_run env) fun _ =>
      stepSeq (fill_step3_run env) fun _ =>
        stepSeq (fill_step4_run dry env.postSubmit) fun _ =>
          ([Ev.saveDetails (submission_details_text cfg d dt)], none))
  obtain ⟨t1, ht1⟩ := fill_step1_run_head env
  refine ⟨t1 ++ t2, ?_⟩
  rw [ht2, ht1]
  simp

theorem try_block_eq (dry : Bool) (env : Env) (cfg : Config) (d dt : String) :
    try_block dry env cfg d dt =
      (Ev.goto :: Ev.checkCaptcha ::
         (captcha_artifacts env.initialPage ++
           (if env.navFormOk then
              Ev.navigateToForm :: Ev.checkCaptcha ::
                (captcha_artifacts env.formPage ++ (steps_block dry env cfg d dt).1)
            else save_debug_artifacts "no_report_button")),
       if env.navFormOk then (steps_block dry env cfg d dt).2
       else some ⟨.generic, "Could not find Report rats button"⟩) := by
  unfold try_block navigate_to_complaint_form_run
  cases h : env.navFormOk <;>
    simp [h, stepSeq, ensure_no_captcha_run_eq, save_debug_artifacts]

/-- The trace of any run: after the events preceding the first What-step
fill, no challenge check ever occurs. -/
theorem main_run_no_captcha_after_fill (dry : Bool) (env : Env) (cfg : Config)
    (d dt : String) :
    (((main_run dry env cfg d dt).2.dropWhile (fun e => e != Ev.fillWhat)).all
        (fun e => e != Ev.checkCaptcha)) = true := by
  unfold main_run
  rw [try_block_eq]
  have ha1 := captcha_artifacts_all (fun e => e != Ev.fillWhat) rfl rfl env.initialPage
  have ha2 := captcha_artifacts_all (fun e => e != Ev.fillWhat) rfl rfl env.formPage
  cases h : env.navFormOk
  · simp only [h, Bool.false_eq_true, if_false]
    simp +decide [save_debug_artifacts, List.dropWhile_cons, List.append_assoc,
      dropWhile_append_of_all _ _ _ ha1, handle_failure, List.all_append]
  · simp only [h, if_true]
    rcases steps_block_head dry env cfg d dt with ⟨t, ht⟩
    have hall := steps_block_no_captcha dry env cfg d dt
    rw [ht] at hall
    simp only [List.all_cons, Bool.and_eq_true] at hall
    cases hx : (steps_block dry env cfg d dt).2 with
    | none =>
        simp only [hx]
        rw [ht]
        simp +decide [List.dropWhile_cons, List.append_assoc,
          dropWhile_append_of_all _ _ _ ha1, dropWhile_append_of_all _ _ _ ha2,
          List.all_cons, hall.1, hall.2]
    | some ex =>
        simp only [hx]
        rw [ht]
        have hh := handle_failure_no_captcha ex
        simp +decide [List.dropWhile_cons, List.append_assoc, List.cons_append,
          dropWhile_append_of_all _ _ _ ha1, dropWhile_append_of_all _ _ _ ha2,
          List.all_cons, List.all_append, hall.1, hall.2, hh]

theorem wcn_not_visible (q : StepPage) (exp : Option Nat) :
    wait_and_click_next_run false q exp =
      ([], some ⟨.timeout, "next button not visible"⟩) := rfl

theorem steps_block_dry_success (env : Env) (cfg : Config) (d dt : String)
    (h2 : env.next1Visible = true)
    (h3 : verify_step_transition env.afterNext1 (some 2) = .ok ())
    (h4 : env.addressStage ≠ AddressOutcome.failed)
    (h5 : env.next2Visible = true)
    (h6 : verify_step_transition env.afterNext2 (some 3) = .ok ())
    (h7 : env.next3Visible = true)
    (h8 : verify_step_transition env.afterNext3 (some 4) = .ok ()) :
    steps_block true env cfg d dt =
      ([Ev.fillWhat] ++
        (if recurringChecked env.step1Page then [Ev.setRecurring] else []) ++
        [Ev.clickNext, Ev.fillWhere] ++
        (if env.addressStage = AddressOutcome.okAfterMapClick then
           save_debug_artifacts "address_button_still_disabled" else []) ++
        [Ev.clickNext, Ev.clickNext,
         Ev.saveDetails (submission_details_text cfg d dt)], none) := by
  unfold steps_block fill_step1_run fill_step2_run fill_step3_run fill_step4_run
  rw [h2, h5, h7,
    wait_and_click_next_run_ok _ _ h3,
    wait_and_click_next_run_ok _ _ h6,
    wait_and_click_next_run_ok _ _ h8]
  cases ha : env.addressStage with
  | ok =>
      cases hr : recurringChecked env.step1Page <;>
        simp [stepSeq, save_debug_artifacts]
  | okAfterMapClick =>
      cases hr : recurringChecked env.step1Page <;>
        simp [stepSeq, save_debug_artifacts]
  | failed => exact absurd ha h4

theorem main_run_dry_success (env : Env) (cfg : Config) (d dt : String)
    (h1 : env.navFormOk = true)
    (h2 : env.next1Visible = true)
    (h3 : verify_step_transition env.afterNext1 (some 2) = .ok ())
    (h4 : env.addressStage ≠ AddressOutcome.failed)
    (h5 : env.next2Visible = true)
    (h6 : verify_step_transition env.afterNext2 (some 3) = .ok ())
    (h7 : env.next3Visible = true)
    (h8 : verify_step_transition env.afterNext3 (some 4) = .ok ()) :
    main_run true env cfg d dt =
      (0, [Ev.goto, Ev.checkCaptcha] ++ captcha_artifacts env.initialPage ++
          [Ev.navigateToForm, Ev.checkCaptcha] ++ captcha_artifacts env.formPage ++
          [Ev.fillWhat] ++
          (if recurringChecked env.step1Page then [Ev.setRecurring] else []) ++
          [Ev.clickNext, Ev.fillWhere] ++
          (if env.addressStage = AddressOutcome.okAfterMapClick then
             save_debug_artifacts "address_button_still_disabled" else []) ++
          [Ev.clickNext, Ev.clickNext,
           Ev.saveDetails (submission_details_text cfg d dt)]) := by
  unfold main_run
  rw [try_block_eq, steps_block_dry_success env cfg d dt h2 h3 h4 h5 h6 h7 h8]
  simp [h1]

theorem main_run_exit_code (dry : Bool) (env : Env) (cfg : Config) (d dt : String) :
    (main_run dry env cfg d dt).1 =
      if (try_block dry env cfg d dt).2.isSome then 1 else 0 := by
  unfold main_run
  rcases h : try_block dry env cfg d dt with ⟨evs, ex⟩
  cases ex <;> simp [h]

/-! ## C4 — no challenge check before the final submit click -/

/-- C4 counterexample: a complete, successful non-dry run in which the
submit affordance is clicked although no challenge check occurs anywhere at
or after the first form-filling interaction — in particular none between
the last form step and submission.  Both challenge checks happen before any
form interaction, refuting the claim that the guard is invoked again before
the final submit click. -/
theorem c4_counterexample :
    ((main_run false happyEnv defaultConfig sampleDescription sampleDt).2.contains
        Ev.clickSubmit) = true ∧
    (((main_run false happyEnv defaultConfig sampleDescription sampleDt).2.dropWhile
        (fun e => e != Ev.fillWhat)).contains Ev.checkCaptcha) = false := by
  constructor
  · decide
  · decide

/-- C4 amended: in every run the challenge guard is invoked before any
form-filling interaction (it appears among the events preceding the first
What-step fill), and it is never invoked again once form filling has begun —
so no run path has a challenge check between the last form step and the
submit click. -/
theorem c4_amended_guard_only_before_filling (dry : Bool) (env : Env)
    (cfg : Config) (d dt : String) :
    (((main_run dry env cfg d dt).2.takeWhile (fun e => e != Ev.fillWhat)).contains
        Ev.checkCaptcha) = true ∧
    (((main_run dry env cfg d dt).2.dropWhile (fun e => e != Ev.fillWhat)).all
        (fun e => e != Ev.checkCaptcha)) = true := by
  refine ⟨?_, main_run_no_captcha_after_fill dry env cfg d dt⟩
  unfold main_run
  rw [try_block_eq]
  cases h : env.navFormOk
  · simp only [h, Bool.false_eq_true, if_false]
    simp +decide [List.takeWhile_cons]
  · simp only [h, if_true]
    cases hx : (steps_block dry env cfg d dt).2 <;>
      simp +decide [List.takeWhile_cons, List.cons_append]

/-! ## C6 — dry run skips submit and exits 0 -/

/-- C6: every dry run that reaches Step 4 never clicks the submit
affordance, completes as a success with exit status 0, and in general the
exit status is 1 exactly when some step of the run raised (every failure
category maps to 1). -/
theorem c6_dry_run_skips_submit_exits_zero (env : Env) (cfg : Config) (d dt : String)
    (h1 : env.navFormOk = true)
    (h2 : env.next1Visible = true)
    (h3 : verify_step_transition env.afterNext1 (some 2) = .ok ())
    (h4 : env.addressStage ≠ AddressOutcome.failed)
    (h5 : env.next2Visible = true)
    (h6 : verify_step_transition env.afterNext2 (some 3) = .ok ())
    (h7 : env.next3Visible = true)
    (h8 : verify_step_transition env.afterNext3 (some 4) = .ok ()) :
    main_run true env cfg d dt =
      (0, [Ev.goto, Ev.checkCaptcha] ++ captcha_artifacts env.initialPage ++
          [Ev.navigateToForm, Ev.checkCaptcha] ++ captcha_artifacts env.formPage ++
          [Ev.fillWhat] ++
          (if recurringChecked env.step1Page then [Ev.setRecurring] else []) ++
          [Ev.clickNext, Ev.fillWhere] ++
          (if env.addressStage = AddressOutcome.okAfterMapClick then
             save_debug_artifacts "address_button_still_disabled" else []) ++
          [Ev.clickNext, Ev.clickNext,
           Ev.saveDetails (submission_details_text cfg d dt)]) ∧
    ((main_run true env cfg d dt).2.all (fun e => e != Ev.clickSubmit)) = true ∧
    (∀ dry2 env2 cfg2 d2 dt2,
      (main_run dry2 env2 cfg2 d2 dt2).1 =
        if (try_block dry2 env2 cfg2 d2 dt2).2.isSome then 1 else 0) := by
  have hm := main_run_dry_success env cfg d dt h1 h2 h3 h4 h5 h6 h7 h8
  refine ⟨hm, ?_, fun dry2 env2 cfg2 d2 dt2 => main_run_exit_code dry2 env2 cfg2 d2 dt2⟩
  have hb1 := captcha_artifacts_all (fun e => e != Ev.clickSubmit) rfl rfl env.initialPage
  have hb2 := captcha_artifacts_all (fun e => e != Ev.clickSubmit) rfl rfl env.formPage
  rw [hm]
  by_cases had : env.addressStage = AddressOutcome.okAfterMapClick <;>
    cases hr : recurringChecked env.step1Page <;>
      simp +decide [had, hr, List.all_append, hb1, hb2, save_debug_artifacts]

theorem c6_witness :
    happyEnv.navFormOk = true ∧
    happyEnv.next1Visible = true ∧
    verify_step_transition happyEnv.afterNext1 (some 2) = .ok () ∧
    happyEnv.addressStage ≠ AddressOutcome.failed ∧
    happyEnv.next2Visible = true ∧
    verify_step_transition happyEnv.afterNext2 (some 3) = .ok () ∧
    happyEnv.next3Visible = true ∧
    verify_step_transition happyEnv.afterNext3 (some 4) = .ok () ∧
    (main_run true happyEnv defaultConfig sampleDescription sampleDt =
      (0, [Ev.goto, Ev.checkCaptcha] ++ captcha_artifacts happyEnv.initialPage ++
          [Ev.navigateToForm, Ev.checkCaptcha] ++ captcha_artifacts happyEnv.formPage ++
          [Ev.fillWhat] ++
          (if recurringChecked happyEnv.step1Page then [Ev.setRecurring] else []) ++
          [Ev.clickNext, Ev.fillWhere] ++
          (if happyEnv.addressStage = AddressOutcome.okAfterMapClick then
             save_debug_artifacts "address_button_still_disabled" else []) ++
          [Ev.clickNext, Ev.clickNext,
           Ev.saveDetails (submission_details_text defaultConfig sampleDescription sampleDt)]) ∧
    ((main_run true happyEnv defaultConfig sampleDescription sampleDt).2.all
        (fun e => e != Ev.clickSubmit)) = true ∧
    (∀ dry2 env2 cfg2 d2 dt2,
      (main_run dry2 env2 cfg2 d2 dt2).1 =
        if (try_block dry2 env2 cfg2 d2 dt2).2.isSome then 1 else 0)) :=
  ⟨rfl, rfl, rfl, by decide, rfl, rfl, rfl, rfl,
   c6_dry_run_skips_submit_exits_zero happyEnv defaultConfig sampleDescription sampleDt
     rfl rfl rfl (by decide) rfl rfl rfl rfl⟩

/-! ## C7 — step-2 advance timeout diagnostics -/

theorem steps_block_step2_timeout (env : Env) (cfg : Config) (d dt : String)
    (h2 : env.next1Visible = true)
    (h3 : verify_step_transition env.afterNext1 (some 2) = .ok ())
    (h4 : env.addressStage ≠ AddressOutcome.failed)
    (h5 : env.next2Visible = false) :
    steps_block false env cfg d dt =
      ([Ev.fillWhat] ++
        (if recurringChecked env.step1Page then [Ev.setRecurring] else []) ++
        [Ev.clickNext, Ev.fillWhere] ++
        (if env.addressStage = AddressOutcome.okAfterMapClick then
           save_debug_artifacts "address_button_still_disabled" else []),
       some ⟨.timeout, "next button not visible"⟩) := by
  unfold steps_block fill_step1_run fill_step2_run
  rw [h2, h5, wait_and_click_next_run_ok _ _ h3, wcn_not_visible]
  cases ha : env.addressStage with
  | ok =>
      cases hr : recurringChecked env.step1Page <;>
        simp [stepSeq, save_debug_artifacts]
  | okAfterMapClick =>
      cases hr : recurringChecked env.step1Page <;>
        simp [stepSeq, save_debug_artifacts]
  | failed => exact absurd ha h4

theorem main_run_step2_timeout (env : Env) (cfg : Config) (d dt : String)
    (h1 : env.navFormOk = true)
    (h2 : env.next1Visible = true)
    (h3 : verify_step_transition env.afterNext1 (some 2) = .ok ())
    (h4 : env.addressStage ≠ AddressOutcome.failed)
    (h5 : env.next2Visible = false) :
    main_run false env cfg d dt =
      (1, [Ev.goto, Ev.checkCaptcha] ++ captcha_artifacts env.initialPage ++
          [Ev.navigateToForm, Ev.checkCaptcha] ++ captcha_artifacts env.formPage ++
          [Ev.fillWhat] ++
          (if recurringChecked env.step1Page then [Ev.setRecurring] else []) ++
          [Ev.clickNext, Ev.fillWhere] ++
          (if env.addressStage = AddressOutcome.okAfterMapClick then
             save_debug_artifacts "address_button_still_disabled" else []) ++
          [Ev.saveScreenshot "timeout_error", Ev.saveHtml "timeout_error"]) := by
  unfold main_run
  rw [try_block_eq, steps_block_step2_timeout env cfg d dt h2 h3 h4 h5]
  simp [h1, handle_failure, save_debug_artifacts]

/-- C7 amended: when the advance affordance never becomes visible within its
bound at Step 2 — everything earlier having succeeded cleanly, with no
challenge-guard artifacts and the address stage enabling its button in
time — exactly one diagnostics pair (one screenshot plus one
serialized-document file) is produced and the process exits with status 1;
but the pair's identifier is the generic "timeout_error" tag of the
orchestrator's timeout handler, not a Step 2 specific tag.  When the
address stage instead recovered through the disabled-button branch, that
branch already saved an "address_button_still_disabled" pair, so the same
failure produces two pairs. -/
theorem c7_amended_one_pair_generic_timeout_tag (env : Env) (cfg : Config)
    (d dt : String)
    (h1 : env.navFormOk = true)
    (h2 : env.next1Visible = true)
    (h3 : verify_step_transition env.afterNext1 (some 2) = .ok ())
    (h4 : env.addressStage = AddressOutcome.ok)
    (h5 : env.next2Visible = false)
    (hc1 : captcha_artifacts env.initialPage = [])
    (hc2 : captcha_artifacts env.formPage = []) :
    main_run false env cfg d dt =
      (1, [Ev.goto, Ev.checkCaptcha, Ev.navigateToForm, Ev.checkCaptcha, Ev.fillWhat] ++
          (if recurringChecked env.step1Page then [Ev.setRecurring] else []) ++
          [Ev.clickNext, Ev.fillWhere,
           Ev.saveScreenshot "timeout_error", Ev.saveHtml "timeout_error"]) ∧
    ((main_run false env cfg d dt).2.countP isScreenshotEv) = 1 ∧
    ((main_run false env cfg d dt).2.countP isHtmlEv) = 1 ∧
    (∀ env2 cfg2 d2 dt2,
      env2.navFormOk = true →
      env2.next1Visible = true →
      verify_step_transition env2.afterNext1 (some 2) = .ok () →
      env2.addressStage = AddressOutcome.okAfterMapClick →
      env2.next2Visible = false →
      captcha_artifacts env2.initialPage = [] →
      captcha_artifacts env2.formPage = [] →
      ((main_run false env2 cfg2 d2 dt2).2.countP isScreenshotEv) = 2 ∧
      ((main_run false env2 cfg2 d2 dt2).2.countP isHtmlEv) = 2) := by
  have h4ne : env.addressStage ≠ AddressOutcome.failed := by
    rw [h4]
    intro hcon
    exact AddressOutcome.noConfusion hcon
  have hm0 := main_run_step2_timeout env cfg d dt h1 h2 h3 h4ne h5
  have hm : main_run false env cfg d dt =
      (1, [Ev.goto, Ev.checkCaptcha, Ev.navigateToForm, Ev.checkCaptcha, Ev.fillWhat] ++
          (if recurringChecked env.step1Page then [Ev.setRecurring] else []) ++
          [Ev.clickNext, Ev.fillWhere,
           Ev.saveScreenshot "timeout_error", Ev.saveHtml "timeout_error"]) := by
    rw [hm0]
    simp [hc1, hc2, h4]
  refine ⟨hm, ?_, ?_, ?_⟩
  · rw [hm]
    cases hr : recurringChecked env.step1Page <;>
      simp +decide [hr, List.countP_cons, List.countP_nil, List.countP_append]
  · rw [hm]
    cases hr : recurringChecked env.step1Page <;>
      simp +decide [hr, List.countP_cons, List.countP_nil, List.countP_append]
  · intro env2 cfg2 d2 dt2 g1 g2 g3 g4 g5 gc1 gc2
    have g4ne : env2.addressStage ≠ AddressOutcome.failed := by
      rw [g4]
      intro hcon
      exact AddressOutcome.noConfusion hcon
    have hm2 := main_run_step2_timeout env2 cfg2 d2 dt2 g1 g2 g3 g4ne g5
    rw [hm2]
    constructor <;>
      cases hr : recurringChecked env2.step1Page <;>
        simp +decide [hr, gc1, gc2, g4, save_debug_artifacts,
          List.countP_cons, List.countP_nil, List.countP_append]

theorem c7_witness :
    step2TimeoutEnv.navFormOk = true ∧
    step2TimeoutEnv.next1Visible = true ∧
    verify_step_transition step2TimeoutEnv.afterNext1 (some 2) = .ok () ∧
    step2TimeoutEnv.addressStage = AddressOutcome.ok ∧
    step2TimeoutEnv.next2Visible = false ∧
    captcha_artifacts step2TimeoutEnv.initialPage = [] ∧
    captcha_artifacts step2TimeoutEnv.formPage = [] ∧
    (main_run false step2TimeoutEnv defaultConfig sampleDescription sampleDt =
      (1, [Ev.goto, Ev.checkCaptcha, Ev.navigateToForm, Ev.checkCaptcha, Ev.fillWhat] ++
          (if recurringChecked step2TimeoutEnv.step1Page then [Ev.setRecurring] else []) ++
          [Ev.clickNext, Ev.fillWhere,
           Ev.saveScreenshot "timeout_error", Ev.saveHtml "timeout_error"]) ∧
    ((main_run false step2TimeoutEnv defaultConfig sampleDescription sampleDt).2.countP
        isScreenshotEv) = 1 ∧
    ((main_run false step2TimeoutEnv defaultConfig sampleDescription sampleDt).2.countP
        isHtmlEv) = 1 ∧
    (∀ env2 cfg2 d2 dt2,
      env2.navFormOk = true →
      env2.next1Visible = true →
      verify_step_transition env2.afterNext1 (some 2) = .ok () →
      env2.addressStage = AddressOutcome.okAfterMapClick →
      env2.next2Visible = false →
      captcha_artifacts env2.initialPage = [] →
      captcha_artifacts env2.formPage = [] →
      ((main_run false env2 cfg2 d2 dt2).2.countP isScreenshotEv) = 2 ∧
      ((main_run false env2 cfg2 d2 dt2).2.countP isHtmlEv) = 2)) :=
  ⟨rfl, rfl, rfl, rfl, rfl, rfl, rfl,
   c7_amended_one_pair_generic_timeout_tag step2TimeoutEnv defaultConfig
     sampleDescription sampleDt rfl rfl rfl rfl rfl rfl rfl⟩

/-- C7 counterexample: in the concrete run where the Step 2 advance button
never becomes visible, the diagnostics pair produced by the failure carries
the generic tag "timeout_error", which references neither "2" nor "Step" —
it is not tagged for Step 2 as the claim states (the run does exit 1); and
in the concrete run whose address stage recovered through the
disabled-button branch, the same Step 2 failure leaves two screenshots, so
the pair is not unique either. -/
theorem c7_counterexample :
    (main_run false step2TimeoutEnv defaultConfig sampleDescription sampleDt).2 =
      [Ev.goto, Ev.checkCaptcha, Ev.navigateToForm, Ev.checkCaptcha, Ev.fillWhat,
       Ev.setRecurring, Ev.clickNext, Ev.fillWhere,
       Ev.saveScreenshot "timeout_error", Ev.saveHtml "timeout_error"] ∧
    (main_run false step2TimeoutEnv defaultConfig sampleDescription sampleDt).1 = 1 ∧
    ((main_run false step2TimeoutEnv defaultConfig sampleDescription sampleDt).2.filter
        isScreenshotEv) = [Ev.saveScreenshot "timeout_error"] ∧
    strContains "timeout_error" "2" = false ∧
    strContains "timeout_error" "Step" = false ∧
    ((main_run false step2TimeoutMapClickEnv defaultConfig sampleDescription
        sampleDt).2.countP isScreenshotEv) = 2 ∧
    ((main_run false step2TimeoutMapClickEnv defaultConfig sampleDescription
        sampleDt).2.countP isHtmlEv) = 2 := by
  refine ⟨by decide, by decide, by decide, by decide, by decide, by decide, by decide⟩

/-! ## C8 — recurrence indicator -/

/-- C8 counterexample: on a Step 1 page where no "Yes" radio resolves
(neither inside a recurring group nor page-wide), the run silently
continues — it completes Step 1 and the whole submission with exit 0 — and
the recurrence indicator is never set. -/
theorem c8_counterexample :
    (main_run false noRecurringRadioEnv defaultConfig sampleDescription sampleDt).1 = 0 ∧
    ((main_run false noRecurringRadioEnv defaultConfig sampleDescription sampleDt).2.all
        (fun e => e != Ev.setRecurring)) = true ∧
    ((main_run false noRecurringRadioEnv defaultConfig sampleDescription sampleDt).2.contains
        Ev.clickSubmit) = true ∧
    recurringChecked step1PageNoRadio = false := by
  refine ⟨by decide, by decide, by decide, by decide⟩

/-- C8 amended: Step 1 sets the recurrence indicator to the affirmative
option exactly when a "Yes" radio resolves (group-scoped when a recurring
group matches, page-wide otherwise); when none resolves the indicator is
left unset and Step 1 still completes normally. -/
theorem c8_amended_recurrence_set_iff_radio_found (env : Env)
    (h2 : env.next1Visible = true)
    (h3 : verify_step_transition env.afterNext1 (some 2) = .ok ()) :
    fill_step1_run env =
      ([Ev.fillWhat] ++
        (if recurringChecked env.step1Page then [Ev.setRecurring] else []) ++
        [Ev.clickNext], none) ∧
    ((fill_step1_run env).1.contains Ev.setRecurring) = recurringChecked env.step1Page := by
  have he : fill_step1_run env =
      ([Ev.fillWhat] ++
        (if recurringChecked env.step1Page then [Ev.setRecurring] else []) ++
        [Ev.clickNext], none) := by
    unfold fill_step1_run
    rw [h2, wait_and_click_next_run_ok _ _ h3]
  refine ⟨he, ?_⟩
  rw [he]
  cases hr : recurringChecked env.step1Page <;> decide

theorem c8_witness :
    noRecurringRadioEnv.next1Visible = true ∧
    verify_step_transition noRecurringRadioEnv.afterNext1 (some 2) = .ok () ∧
    (fill_step1_run noRecurringRadioEnv =
      ([Ev.fillWhat] ++
        (if recurringChecked noRecurringRadioEnv.step1Page then [Ev.setRecurring] else []) ++
        [Ev.clickNext], none) ∧
    ((fill_step1_run noRecurringRadioEnv).1.contains Ev.setRecurring) =
      recurringChecked noRecurringRadioEnv.step1Page) :=
  ⟨rfl, rfl, c8_amended_recurrence_set_iff_radio_found noRecurringRadioEnv rfl rfl⟩

/-! ## C10 — dry run still writes the summary file -/

/-- C10: every successful dry run still writes the submission-details
summary (the saveDetails event carries exactly the text built by
`save_submission_details`), exits 0, and that text contains the configured
address, the classification lines, the observation timestamp and the chosen
description. -/
theorem c10_dry_run_writes_details (env : Env) (cfg : Config) (d dt : String)
    (h1 : env.navFormOk = true)
    (h2 : env.next1Visible = true)
    (h3 : verify_step_transition env.afterNext1 (some 2) = .ok ())
    (h4 : env.addressStage ≠ AddressOutcome.failed)
    (h5 : env.next2Visible = true)
    (h6 : verify_step_transition env.afterNext2 (some 3) = .ok ())
    (h7 : env.next3Visible = true)
    (h8 : verify_step_transition env.afterNext3 (some 4) = .ok ()) :
    (Ev.saveDetails (submission_details_text cfg d dt)) ∈
      (main_run true env cfg d dt).2 ∧
    (main_run true env cfg d dt).1 = 0 ∧
    strContains (submission_details_text cfg d dt) cfg.address = true ∧
    strContains (submission_details_text cfg d dt)
      "Location Type: 3+ Family Apt. Building" = true ∧
    strContains (submission_details_text cfg d dt)
      "Problem Detail: Condition Attracting Rodents" = true ∧
    strContains (submission_details_text cfg d dt) dt = true ∧
    strContains (submission_details_text cfg d dt) d = true := by
  have hm := main_run_dry_success env cfg d dt h1 h2 h3 h4 h5 h6 h7 h8
  refine ⟨?_, ?_, ?_, ?_, ?_, ?_, ?_⟩
  · rw [hm]
    by_cases had : env.addressStage = AddressOutcome.okAfterMapClick <;>
      cases hr : recurringChecked env.step1Page <;>
        simp [had, hr, save_debug_artifacts]
  · rw [hm]
  · apply strContains_of_parts "Address: " cfg.address
      (", " ++ cfg.city ++ ", " ++ cfg.state ++ " " ++ cfg.zip ++ "\n" ++
        "Location Type: 3+ Family Apt. Building" ++ "\n" ++
        "Problem Detail: Condition Attracting Rodents" ++ "\n" ++
        "Additional Details: Garbage" ++ "\n" ++
        "Date/Time Observed: " ++ dt ++ "\n" ++
        "Recurring: Yes" ++ "\n" ++ "\n" ++ "Description: " ++ d)
    apply String.ext
    simp only [submission_details_text, String.data_append, List.append_assoc,
      List.nil_append, List.append_nil, empty_string_data]
  · apply strContains_of_parts
      ("Address: " ++ cfg.address ++ ", " ++ cfg.city ++ ", " ++
        cfg.state ++ " " ++ cfg.zip ++ "\n")
      "Location Type: 3+ Family Apt. Building"
      ("\n" ++ "Problem Detail: Condition Attracting Rodents" ++ "\n" ++
        "Additional Details: Garbage" ++ "\n" ++
        "Date/Time Observed: " ++ dt ++ "\n" ++
        "Recurring: Yes" ++ "\n" ++ "\n" ++ "Description: " ++ d)
    apply String.ext
    simp only [submission_details_text, String.data_append, List.append_assoc,
      List.nil_append, List.append_nil, empty_string_data]
  · apply strContains_of_parts
      ("Address: " ++ cfg.address ++ ", " ++ cfg.city ++ ", " ++
        cfg.state ++ " " ++ cfg.zip ++ "\n" ++
        "Location Type: 3+ Family Apt. Building" ++ "\n")
      "Problem Detail: Condition Attracting Rodents"
      ("\n" ++ "Additional Details: Garbage" ++ "\n" ++
        "Date/Time Observed: " ++ dt ++ "\n" ++
        "Recurring: Yes" ++ "\n" ++ "\n" ++ "Description: " ++ d)
    apply String.ext
    simp only [submission_details_text, String.data_append, List.append_assoc,
      List.nil_append, List.append_nil, empty_string_data]
  · apply strContains_of_parts
      ("Address: " ++ cfg.address ++ ", " ++ cfg.city ++ ", " ++
        cfg.state ++ " " ++ cfg.zip ++ "\n" ++
        "Location Type: 3+ Family Apt. Building" ++ "\n" ++
        "Problem Detail: Condition Attracting Rodents" ++ "\n" ++
        "Additional Details: Garbage" ++ "\n" ++
        "Date/Time Observed: ")
      dt
      ("\n" ++ "Recurring: Yes" ++ "\n" ++ "\n" ++ "Description: " ++ d)
    apply String.ext
    simp only [submission_details_text, String.data_append, List.append_assoc,
      List.nil_append, List.append_nil, empty_string_data]
  · apply strContains_of_parts
      ("Address: " ++ cfg.address ++ ", " ++ cfg.city ++ ", " ++
        cfg.state ++ " " ++ cfg.zip ++ "\n" ++
        "Location Type: 3+ Family Apt. Building" ++ "\n" ++
        "Problem Detail: Condition Attracting Rodents" ++ "\n" ++
        "Additional Details: Garbage" ++ "\n" ++
        "Date/Time Observed: " ++ dt ++ "\n" ++
        "Recurring: Yes" ++ "\n" ++ "\n" ++ "Description: ")
      d ""
    apply String.ext
    simp only [submission_details_text, String.data_append, List.append_assoc,
      List.nil_append, List.append_nil, empty_string_data]

theorem c10_witness :
    happyEnv.navFormOk = true ∧
    happyEnv.next1Visible = true ∧
    verify_step_transition happyEnv.afterNext1 (some 2) = .ok () ∧
    happyEnv.addressStage ≠ AddressOutcome.failed ∧
    happyEnv.next2Visible = true ∧
    verify_step_transition happyEnv.afterNext2 (some 3) = .ok () ∧
    happyEnv.next3Visible = true ∧
    verify_step_transition happyEnv.afterNext3 (some 4) = .ok () ∧
    ((Ev.saveDetails (submission_details_text defaultConfig sampleDescription sampleDt)) ∈
      (main_run true happyEnv defaultConfig sampleDescription sampleDt).2 ∧
    (main_run true happyEnv defaultConfig sampleDescription sampleDt).1 = 0 ∧
    strContains (submission_details_text defaultConfig sampleDescription sampleDt)
      defaultConfig.address = true ∧
    strContains (submission_details_text defaultConfig sampleDescription sampleDt)
      "Location Type: 3+ Family Apt. Building" = true ∧
    strContains (submission_details_text defaultConfig sampleDescription sampleDt)
      "Problem Detail: Condition Attracting Rodents" = true ∧
    strContains (submission_details_text defaultConfig sampleDescription sampleDt)
      sampleDt = true ∧
    strContains (submission_details_text defaultConfig sampleDescription sampleDt)
      sampleDescription = true) :=
  ⟨rfl, rfl, rfl, by decide, rfl, rfl, rfl, rfl,
   c10_dry_run_writes_details happyEnv defaultConfig sampleDescription sampleDt
     rfl rfl rfl (by decide) rfl rfl rfl rfl⟩

end Submit
